import Mathlib

/-!
Verification of the dispatch core of `ai_breakup_recovery_agent/main.py`.

The Python module routes an incoming chat message list to one of five
capabilities (four persona agents and a coordinating team), with lazy,
mutex-guarded one-time initialization.  All model/network behaviour
(`agno` agents, `Gemini`/`OpenRouter` clients, temp-file image loading)
is external to the repository and is modelled as an environment of
oracles returning `Except String String` (an `Except.error e` models a
raised Python exception with message `e`).  Everything else — message
extraction, JSON-payload parsing, mode dispatch, the initialization
flag, and the error-to-string conversions — is translated directly from
the source.
-/

namespace BreakupAgent

/-- A JSON value, as produced by Python's `json.loads` (63-66, 444).
Numbers are modelled as integers; the handler never inspects numeric
values beyond truthiness, and no claim involves fractional numerals. -/
inductive Json where
  | null : Json
  | b (v : Bool) : Json
  | num (v : Int) : Json
  | str (s : String) : Json
  | arr (xs : List Json) : Json
  | obj (kvs : List (String × Json)) : Json

/-- The opening-brace character, `U+007B`. -/
def lbrace : Char := Char.ofNat 123

/-- The closing-brace character, `U+007D`. -/
def rbrace : Char := Char.ofNat 125

/-- Python truthiness (`if not user_input`, `if images_data`) on the
JSON values the handler manipulates. -/
def pythonTruthy : Json → Bool
  | Json.null => false
  | Json.b v => v
  | Json.num v => v != 0
  | Json.str s => s != ""
  | Json.arr xs => !xs.isEmpty
  | Json.obj kvs => !kvs.isEmpty

/-- Python truthiness of the optional `api_key` global (line 100):
`None` and the empty string are falsy. -/
def pyTruthyOptStr : Option String → Bool
  | none => false
  | some s => s != ""

/-- Model of `dict.get` on a parsed JSON object.  Python's `json.loads` keeps the
last occurrence of a duplicated key, hence the left fold. -/
def jget (kvs : List (String × Json)) (k : String) : Option Json :=
  kvs.foldl (fun acc p => if p.1 = k then some p.2 else acc) none

/-- Value of a hexadecimal digit, used for `\uXXXX` string escapes. -/
def hexVal (c : Char) : Option Nat :=
  if '0' ≤ c ∧ c ≤ '9' then some (c.toNat - 48)
  else if 'a' ≤ c ∧ c ≤ 'f' then some (c.toNat - 87)
  else if 'A' ≤ c ∧ c ≤ 'F' then some (c.toNat - 55)
  else none

/-- Single-character JSON string escapes. -/
def escChar : Char → Option Char
  | '\"' => some '\"'
  | '\\' => some '\\'
  | '/' => some '/'
  | 'b' => some (Char.ofNat 8)
  | 'f' => some (Char.ofNat 12)
  | 'n' => some '\n'
  | 'r' => some (Char.ofNat 13)
  | 't' => some '\t'
  | _ => none

/-- Skip JSON whitespace (the four characters `json.loads` skips). -/
def skipWs : List Char → List Char
  | [] => []
  | c :: cs =>
    if c = ' ' ∨ c = '\t' ∨ c = '\n' ∨ c = Char.ofNat 13 then skipWs cs
    else c :: cs

/-- Parse the body of a JSON string (after the opening quote), returning
the decoded characters and the remainder after the closing quote.
Unescaped control characters are rejected, as in strict `json.loads`. -/
def parseStringBody : List Char → Option (List Char × List Char)
  | [] => none
  | '\"' :: cs => some ([], cs)
  | '\\' :: 'u' :: h1 :: h2 :: h3 :: h4 :: cs =>
    match hexVal h1, hexVal h2, hexVal h3, hexVal h4 with
    | some a, some b, some c, some d =>
      (parseStringBody cs).map
        (fun p => (Char.ofNat (a * 4096 + b * 256 + c * 16 + d) :: p.1, p.2))
    | _, _, _, _ => none
  | '\\' :: e :: cs =>
    match escChar e with
    | some ch => (parseStringBody cs).map (fun p => (ch :: p.1, p.2))
    | none => none
  | c :: cs =>
    if c.toNat < 32 then none
    else (parseStringBody cs).map (fun p => (c :: p.1, p.2))

/-- Parse a JSON integer numeral (optional minus, then digits).  A
fractional or exponent part makes the model reject the document; no
code path in the handler depends on non-integer numerals. -/
def parseNumber (cs : List Char) : Option (Int × List Char) :=
  let p := match cs with
    | '-' :: t => (true, t)
    | _ => (false, cs)
  let dsRest := p.2.span (fun c => c.isDigit)
  if dsRest.1.isEmpty then none
  else
    match dsRest.2 with
    | '.' :: _ => none
    | 'e' :: _ => none
    | 'E' :: _ => none
    | _ =>
      let n : Nat := dsRest.1.foldl (fun acc c => acc * 10 + (c.toNat - 48)) 0
      some (if p.1 then -(n : Int) else (n : Int), dsRest.2)

mutual

/-- Parse one JSON value; `fuel` bounds recursion depth. -/
def parseVal : Nat → List Char → Option (Json × List Char)
  | 0, _ => none
  | fuel + 1, cs =>
    match skipWs cs with
    | [] => none
    | c :: rest =>
      if c = lbrace then
        match skipWs rest with
        | [] => none
        | d :: r2 =>
          if d = rbrace then some (Json.obj [], r2)
          else parseMembers fuel (d :: r2) []
      else if c = '[' then
        match skipWs rest with
        | ']' :: r2 => some (Json.arr [], r2)
        | cs2 => parseElems fuel cs2 []
      else if c = '\"' then
        (parseStringBody rest).map (fun p => (Json.str (String.mk p.1), p.2))
      else
        match c :: rest with
        | 't' :: 'r' :: 'u' :: 'e' :: r => some (Json.b true, r)
        | 'f' :: 'a' :: 'l' :: 's' :: 'e' :: r => some (Json.b false, r)
        | 'n' :: 'u' :: 'l' :: 'l' :: r => some (Json.null, r)
        | cs2 => (parseNumber cs2).map (fun p => (Json.num p.1, p.2))

/-- Parse the members of a JSON object (first member onward). -/
def parseMembers : Nat → List Char → List (String × Json) →
    Option (Json × List Char)
  | 0, _, _ => none
  | fuel + 1, cs, acc =>
    match skipWs cs with
    | '\"' :: rest =>
      match parseStringBody rest with
      | none => none
      | some (k, r1) =>
        match skipWs r1 with
        | ':' :: r2 =>
          match parseVal fuel r2 with
          | none => none
          | some (v, r3) =>
            match skipWs r3 with
            | ',' :: r4 => parseMembers fuel r4 (acc ++ [(String.mk k, v)])
            | d :: r4 =>
              if d = rbrace then some (Json.obj (acc ++ [(String.mk k, v)]), r4)
              else none
            | [] => none
        | _ => none
    | _ => none

/-- Parse the elements of a JSON array (first element onward). -/
def parseElems : Nat → List Char → List Json → Option (Json × List Char)
  | 0, _, _ => none
  | fuel + 1, cs, acc =>
    match parseVal fuel cs with
    | none => none
    | some (v, r) =>
      match skipWs r with
      | ',' :: r2 => parseElems fuel r2 (acc ++ [v])
      | ']' :: r2 => some (Json.arr (acc ++ [v]), r2)
      | _ => none

end

/-- Model of Python's `json.loads` (line 444): `none` models a raised
`json.JSONDecodeError`. -/
def json_loads (s : String) : Option Json :=
  match parseVal (s.length + 8) s.data with
  | none => none
  | some (v, rest) => if skipWs rest = [] then some v else none

/-- Test `content.startswith("\x7b")` (line 442). -/
def startsWithBrace (s : String) : Bool :=
  match s.data with
  | c :: _ => c = lbrace
  | [] => false

/-- Test `content.endswith("\x7d")` (line 442). -/
def endsWithBrace (s : String) : Bool :=
  s.data.getLast? = some rbrace

/-- Whether `needle` occurs as a contiguous substring of `hay`. -/
def strHasSub (hay needle : String) : Bool :=
  (List.range (hay.length + 1)).any
    (fun i => (hay.data.drop i).take needle.length == needle.data)

/-- An incoming chat message: a dict with optional `role` and `content`
keys (`last_message.get("role")`, `last_message.get("content", "")`). -/
structure Message where
  role : Option String
  content : Option String

/-- One observable external invocation made by the handler, recorded in
order.  `initAgents` is the agent-construction pass of
`initialize_agents` (96-238); `processImages` is the call at line 473;
the five remaining constructors are the capability invocations behind
`run_therapist_agent`, `run_closure_agent`, `run_routine_planner_agent`,
`run_brutal_honesty_agent` and `run_recovery_team`. -/
inductive Call where
  | initAgents : Call
  | processImages (files : Json) : Call
  | therapist (input : Json) (images : List Json) : Call
  | closure (input : Json) (images : List Json) : Call
  | routine (input : Json) (images : List Json) : Call
  | honest (input : Json) (images : List Json) : Call
  | team (input : Json) (images : List Json) : Call

/-- The external world: configuration globals plus the opaque
model-provider behaviours.  Each capability returns `Except.ok` with the
text the Python function would return, or `Except.error e` modelling a
raised exception with message `e`.  `constructAgents` models the body of
`initialize_agents` after the key check (client and agent construction,
lines 104-238); `mkImage` models the per-file temp-file write and
`AgnoImage` construction inside `process_images` (260-268). -/
structure Env where
  apiKey : Option String
  constructAgents : Except String Unit
  mkImage : Json → Except String Json
  therapist : Json → List Json → Except String String
  closure : Json → List Json → Except String String
  routine : Json → List Json → Except String String
  honest : Json → List Json → Except String String
  team : Json → List Json → Except String String

/-- Model of `initialize_agents` (96-238): raises `ValueError` when the
configured key is falsy (100-102); everything after that is the external
construction pass, whose own failure is re-raised unchanged (235-238). -/
def initialize_agents (env : Env) : Except String Unit :=
  if pyTruthyOptStr env.apiKey then env.constructAgents
  else Except.error "API key must be set before initializing agents"

/-- Model of `process_images` (241-289) applied to the raw `images` JSON value.
On a JSON array each file is processed independently: a per-file failure
is caught, logged and skipped (270-278), so the successes are collected
in order.  Iterating a truthy non-iterable (number or boolean) raises
`TypeError` outside the per-file handler and is re-raised (282-289).
Iterating a string or a dict yields non-dict items whose subscripting
fails inside the per-file handler, so each is skipped. -/
def process_images (mkImage : Json → Except String Json) (files : Json) :
    Except String (List Json) :=
  match files with
  | Json.arr fs => Except.ok (fs.filterMap (fun f => (mkImage f).toOption))
  | Json.num _ => Except.error "object is not iterable"
  | Json.b _ => Except.error "object is not iterable"
  | _ => Except.ok []

/-- Model of `run_therapist_agent` (292-314): wraps the input in the therapist
prompt and invokes the external agent; the prompt text does not affect
the model, so this is the therapist capability itself. -/
def run_therapist_agent (env : Env) (ui : Json) (images : List Json) :
    Except String String :=
  env.therapist ui images

/-- Model of `run_closure_agent` (317-339). -/
def run_closure_agent (env : Env) (ui : Json) (images : List Json) :
    Except String String :=
  env.closure ui images

/-- Model of `run_routine_planner_agent` (342-366). -/
def run_routine_planner_agent (env : Env) (ui : Json) (images : List Json) :
    Except String String :=
  env.routine ui images

/-- Model of `run_recovery_team` (395-416): a single invocation of the external
coordinating `Team`; the handler consumes only the
`coordinator_response` entry of its result dict (486), which is the
`Except.ok` payload here. -/
def run_recovery_team (env : Env) (ui : Json) (images : List Json) :
    Except String String :=
  env.team ui images

/-- Model of `run_brutal_honesty_agent` (369-392). -/
def run_brutal_honesty_agent (env : Env) (ui : Json) (images : List Json) :
    Except String String :=
  env.honest ui images

/-- Extraction of `(user_input, images_data, mode)` from the last
message (lines 432-453).  Defaults: `user_input = ""`,
`images_data = []`, `mode = "team"`.  Content delimited by braces is
parsed as JSON; a parse failure falls back to the raw content as plain
text (449-451); a parsed non-dict leaves `user_input` empty. -/
def extractMsg (m : Message) : Json × Json × Json :=
  if m.role = some "user" then
    let content := m.content.getD ""
    if startsWithBrace content && endsWithBrace content then
      match json_loads content with
      | some (Json.obj kvs) =>
        ((jget kvs "text").getD (Json.str ""),
         (jget kvs "images").getD (Json.arr []),
         (jget kvs "mode").getD (Json.str "team"))
      | some _ => (Json.str "", Json.arr [], Json.str "team")
      | none => (Json.str content, Json.arr [], Json.str "team")
    else (Json.str content, Json.arr [], Json.str "team")
  else (Json.str "", Json.arr [], Json.str "team")

/-- Lines 431-453: only `messages[-1]` is consulted; an empty list
leaves the defaults in place. -/
def extractRequest (messages : List Message) : Json × Json × Json :=
  match messages.getLast? with
  | some m => extractMsg m
  | none => (Json.str "", Json.arr [], Json.str "team")

/-- The image-processing step at line 473:
`await process_images(images_data) if images_data else []`. -/
def imagesStep (env : Env) (imgd : Json) : Except String (List Json) :=
  if pythonTruthy imgd then process_images env.mkImage imgd else Except.ok []

/-- The `mode` dispatch chain at lines 476-486, selecting which
capability the handler awaits; any unrecognized or non-string mode falls
through to the team. -/
def selectedAgent (env : Env) (ui : Json) (images : List Json) (mode : Json) :
    Except String String :=
  match mode with
  | Json.str "therapist" => run_therapist_agent env ui images
  | Json.str "closure" => run_closure_agent env ui images
  | Json.str "routine" => run_routine_planner_agent env ui images
  | Json.str "honest" => run_brutal_honesty_agent env ui images
  | _ => run_recovery_team env ui images

/-- The trace entry corresponding to the branch `selectedAgent` takes. -/
def callOf (mode : Json) (ui : Json) (images : List Json) : Call :=
  match mode with
  | Json.str "therapist" => Call.therapist ui images
  | Json.str "closure" => Call.closure ui images
  | Json.str "routine" => Call.routine ui images
  | Json.str "honest" => Call.honest ui images
  | _ => Call.team ui images

/-- The `try`/`except` at 471-491: a successful capability result is
returned as-is, a raised exception `e` becomes `f"Error: \x7be\x7d"`. -/
def catchToText : Except String String → String
  | Except.ok t => t
  | Except.error e => "Error: " ++ e

/-- The body of the handler's outer `try` block (471-491): process
images, dispatch on `mode`, convert an exception from either stage into
an error string.  Also returns the trace of external invocations. -/
def runDispatch (env : Env) (ui imgd mode : Json) : String × List Call :=
  let pre : List Call :=
    if pythonTruthy imgd then [Call.processImages imgd] else []
  match imagesStep env imgd with
  | Except.error e => ("Error: " ++ e, pre)
  | Except.ok images =>
    (catchToText (selectedAgent env ui images mode),
     pre ++ [callOf mode ui images])

/-- Model of `handler` (419-491).  `initialized` threads the process-global
`_initialized` flag (the `async with _init_lock` serializes handler
bodies, so state threading is the lock's semantics).  Returns the
response string, the new flag value, and the ordered trace of external
invocations. -/
def handler (env : Env) (initialized : Bool) (messages : List Message) :
    String × Bool × List Call :=
  let user_input := (extractRequest messages).1
  let images_data := (extractRequest messages).2.1
  let mode := (extractRequest messages).2.2
  if pythonTruthy user_input then
    if initialized then
      ((runDispatch env user_input images_data mode).1, true,
       (runDispatch env user_input images_data mode).2)
    else
      match initialize_agents env with
      | Except.error e =>
        ("Error: Failed to initialize agents: " ++ e, false, [Call.initAgents])
      | Except.ok _ =>
        ((runDispatch env user_input images_data mode).1, true,
         Call.initAgents :: (runDispatch env user_input images_data mode).2)
  else ("No valid user message found", initialized, [])

/-- Sequential composition of handler calls (the serialization the
`asyncio.Lock` imposes on concurrent requests), threading the
initialization flag and concatenating the traces. -/
def runSeq (env : Env) (init : Bool) : List (List Message) → Bool × List Call
  | [] => (init, [])
  | ms :: rest =>
    ((runSeq env (handler env init ms).2.1 rest).1,
     (handler env init ms).2.2 ++ (runSeq env (handler env init ms).2.1 rest).2)

/-- Whether a trace entry is the agent-construction pass. -/
def isInitCall : Call → Bool
  | Call.initAgents => true
  | _ => false

/-- Number of agent-construction passes in a trace. -/
def countInit (calls : List Call) : Nat :=
  calls.countP (fun c => isInitCall c)

/-- A concrete environment in which every external capability succeeds
with a distinct marker string. -/
def envA : Env where
  apiKey := some "key"
  constructAgents := Except.ok ()
  mkImage := fun f => Except.ok f
  therapist := fun _ _ => Except.ok "THERAPIST-REPLY"
  closure := fun _ _ => Except.ok "CLOSURE-REPLY"
  routine := fun _ _ => Except.ok "ROUTINE-REPLY"
  honest := fun _ _ => Except.ok "HONEST-REPLY"
  team := fun _ _ => Except.ok "TEAM-REPLY"

/-- Environment `envA` with the therapist capability raising (the other three
personas and the team succeed). -/
def envB : Env := { envA with therapist := fun _ _ => Except.error "boom" }

/-- Environment `envA` with no API key configured. -/
def envNoKey : Env := { envA with apiKey := none }

/-- Environment `envA` with the team capability raising. -/
def envTeamFail : Env := { envA with team := fun _ _ => Except.error "agent down" }

example : json_loads "\x7b\"text\":\"I need help\",\"mode\":\"closure\"\x7d" =
    some (Json.obj [("text", Json.str "I need help"), ("mode", Json.str "closure")]) := by
  rfl

example : json_loads "\x7bnot json\x7d" = none := by rfl

example : json_loads "\x7b \"a\" : [1, -2, true, null] \x7d" =
    some (Json.obj [("a", Json.arr [Json.num 1, Json.num (-2), Json.b true, Json.null])]) := by
  rfl

example :
    handler envA true [Message.mk (some "user") (some "I am very sad today")] =
      ("TEAM-REPLY", true, [Call.team (Json.str "I am very sad today") []]) := by
  rfl

example :
    handler envA false
        [Message.mk (some "user")
          (some "\x7b\"text\":\"I need help\",\"mode\":\"closure\"\x7d")] =
      ("CLOSURE-REPLY", true,
        [Call.initAgents, Call.closure (Json.str "I need help") []]) := by
  rfl

example :
    handler envNoKey false [Message.mk (some "user") (some "hello")] =
      ("Error: Failed to initialize agents: API key must be set before initializing agents",
        false, [Call.initAgents]) := by
  rfl

example :
    handler envA true [Message.mk (some "system") (some "hello")] =
      ("No valid user message found", true, []) := by
  rfl

/-- Extraction for a user message holding a well-formed JSON object. -/
lemma extractMsg_json (m : Message) (content : String) (kvs : List (String × Json))
    (hr : m.role = some "user") (hc : m.content = some content)
    (hb : startsWithBrace content = true) (he : endsWithBrace content = true)
    (hp : json_loads content = some (Json.obj kvs)) :
    extractMsg m =
      ((jget kvs "text").getD (Json.str ""),
       (jget kvs "images").getD (Json.arr []),
       (jget kvs "mode").getD (Json.str "team")) := by
  simp [extractMsg, hr, hc, hb, he, hp]

/-- Extraction for a user message holding plain text: content not brace
delimited, or brace delimited but not valid JSON. -/
lemma extractMsg_plain (m : Message) (content : String)
    (hr : m.role = some "user") (hc : m.content = some content)
    (hplain : startsWithBrace content = false ∨ endsWithBrace content = false ∨
      json_loads content = none) :
    extractMsg m = (Json.str content, Json.arr [], Json.str "team") := by
  rcases hba : startsWithBrace content && endsWithBrace content with _ | _
  · simp [extractMsg, hr, hc, hba]
  · rcases Bool.and_eq_true_iff.mp hba with ⟨hb, he⟩
    have hbad : json_loads content = none := by
      rcases hplain with h | h | h
      · rw [h] at hb; exact absurd hb (by simp)
      · rw [h] at he; exact absurd he (by simp)
      · exact h
    simp [extractMsg, hr, hc, hba, hbad]

/-- Extraction through `extractRequest` given the last message. -/
lemma extractRequest_last (msgs : List Message) (m : Message)
    (hl : msgs.getLast? = some m) : extractRequest msgs = extractMsg m := by
  unfold extractRequest
  rw [hl]

/-- The dispatch step when no images are supplied. -/
lemma runDispatch_noImages (env : Env) (ui mode : Json) :
    runDispatch env ui (Json.arr []) mode =
      (catchToText (selectedAgent env ui [] mode), [callOf mode ui []]) := rfl

/-- Lemma: `selectedAgent` on an unrecognized string mode falls to the team. -/
lemma selectedAgent_other (env : Env) (ui : Json) (images : List Json) (s : String)
    (h1 : s ≠ "therapist") (h2 : s ≠ "closure") (h3 : s ≠ "routine")
    (h4 : s ≠ "honest") :
    selectedAgent env ui images (Json.str s) = env.team ui images := by
  unfold selectedAgent
  split <;> simp_all [run_recovery_team]

/-- Lemma: `callOf` on an unrecognized string mode records a team call. -/
lemma callOf_other (ui : Json) (images : List Json) (s : String)
    (h1 : s ≠ "therapist") (h2 : s ≠ "closure") (h3 : s ≠ "routine")
    (h4 : s ≠ "honest") :
    callOf (Json.str s) ui images = Call.team ui images := by
  unfold callOf
  split <;> simp_all

/-- C8: `handler` applied to the empty message list returns the fixed
string `"No valid user message found"`, leaves the initialization flag
unchanged, and makes no external invocation at all: `initialize_agents`
is not invoked and no agent capability is invoked (the trace is empty),
for every environment and flag state. -/
theorem c8_empty_messages (env : Env) (init : Bool) :
    handler env init [] = ("No valid user message found", init, []) := rfl

/-- C9: the handler's result depends only on the last message of the
supplied sequence: for any two non-empty message lists with the same
last message, `handler` produces the same response, flag and external
invocation trace, in every environment. -/
theorem c9_last_message_only (env : Env) (init : Bool)
    (m1 m2 : List Message) (_h1 : m1 ≠ []) (_h2 : m2 ≠ [])
    (h : m1.getLast? = m2.getLast?) :
    handler env init m1 = handler env init m2 := by
  have he : extractRequest m1 = extractRequest m2 := by
    unfold extractRequest
    rw [h]
  unfold handler
  rw [he]

/-- Witness for C9 at a concrete input: a preceding system message does
not change the result. -/
theorem c9_witness :
    handler envA true
        [Message.mk (some "system") (some "context"),
         Message.mk (some "user") (some "hi")] =
      handler envA true [Message.mk (some "user") (some "hi")] :=
  c9_last_message_only envA true _ _ (by simp) (by simp) rfl

/-- C10: when the last message is not a user message, or its extracted
text is empty or otherwise falsy (including a JSON payload whose `text`
key is missing or empty), `handler` returns the fixed string
`"No valid user message found"`, leaves the flag unchanged, and invokes
neither `initialize_agents` nor any agent capability. -/
theorem c10_invalid_user_message (env : Env) (init : Bool)
    (msgs : List Message) (m : Message) (hl : msgs.getLast? = some m)
    (hcase : m.role ≠ some "user" ∨ pythonTruthy (extractMsg m).1 = false) :
    handler env init msgs = ("No valid user message found", init, []) := by
  have hf : pythonTruthy (extractMsg m).1 = false := by
    rcases hcase with h | h
    · simp [extractMsg, h, pythonTruthy]
    · exact h
  unfold handler
  simp [extractRequest_last msgs m hl, hf]

/-- Witness for C10: a system-role last message, and a user message with
an empty JSON `text` key, both yield the fixed refusal string. -/
theorem c10_witness :
    handler envA true [Message.mk (some "system") (some "note")] =
        ("No valid user message found", true, [])
    ∧ handler envA false
          [Message.mk (some "user") (some "\x7b\"mode\":\"closure\"\x7d")] =
        ("No valid user message found", false, []) :=
  ⟨c10_invalid_user_message envA true _ _ rfl (Or.inl (by simp)),
   c10_invalid_user_message envA false _ _ rfl (Or.inr rfl)⟩

/-- C7: content delimited by braces that is not valid JSON is recovered
locally: the whole content becomes the plain user text (with empty
images and default team mode), and — when the content is non-empty and
the flag is set — the handler proceeds normally, dispatching the raw
content to the team rather than failing or raising. -/
theorem c7_malformed_json_fallback (env : Env) (msgs : List Message)
    (m : Message) (content : String)
    (hl : msgs.getLast? = some m) (hr : m.role = some "user")
    (hc : m.content = some content)
    (_hb : startsWithBrace content = true) (_he : endsWithBrace content = true)
    (hbad : json_loads content = none) :
    extractMsg m = (Json.str content, Json.arr [], Json.str "team")
    ∧ (content ≠ "" →
        handler env true msgs =
          (catchToText (env.team (Json.str content) []), true,
           [Call.team (Json.str content) []])) := by
  have hx : extractMsg m = (Json.str content, Json.arr [], Json.str "team") :=
    extractMsg_plain m content hr hc (Or.inr (Or.inr hbad))
  refine ⟨hx, fun hne => ?_⟩
  unfold handler
  rw [extractRequest_last msgs m hl, hx]
  simp [pythonTruthy, hne, runDispatch_noImages, selectedAgent, callOf,
    run_recovery_team]

/-- Witness for C7: `"\x7bnot json\x7d"` is treated as plain text and
routed to the team. -/
theorem c7_witness :
    extractMsg (Message.mk (some "user") (some "\x7bnot json\x7d")) =
        (Json.str "\x7bnot json\x7d", Json.arr [], Json.str "team")
    ∧ handler envA true [Message.mk (some "user") (some "\x7bnot json\x7d")] =
        ("TEAM-REPLY", true, [Call.team (Json.str "\x7bnot json\x7d") []]) := by
  have h := c7_malformed_json_fallback envA
    [Message.mk (some "user") (some "\x7bnot json\x7d")]
    (Message.mk (some "user") (some "\x7bnot json\x7d"))
    "\x7bnot json\x7d" rfl rfl rfl rfl rfl rfl
  exact ⟨h.1, h.2 (by decide)⟩

/-- C6: with no configured API key (absent or empty), the first
initialization attempt fails with the configuration error raised at
lines 100-102, and the handler surfaces it as the descriptive string
`"Error: Failed to initialize agents: API key must be set before
initializing agents"` while leaving the flag false; the failure is
retryable — a later call in an environment where the key is present and
construction succeeds flips the flag to true. -/
theorem c6_missing_api_key_error (env : Env) (msgs : List Message)
    (hkey : pyTruthyOptStr env.apiKey = false)
    (htr : pythonTruthy (extractRequest msgs).1 = true) :
    handler env false msgs =
      ("Error: Failed to initialize agents: API key must be set before initializing agents",
        false, [Call.initAgents])
    ∧ (∀ env2 : Env, pyTruthyOptStr env2.apiKey = true →
        env2.constructAgents = Except.ok () →
        (handler env2 false msgs).2.1 = true) := by
  constructor
  · have hi : initialize_agents env =
        Except.error "API key must be set before initializing agents" := by
      unfold initialize_agents
      rw [hkey]
      rfl
    unfold handler
    simp [htr, hi]
  · intro env2 hk2 hc2
    have hi2 : initialize_agents env2 = Except.ok () := by
      unfold initialize_agents
      rw [hk2]
      exact hc2
    unfold handler
    simp [htr, hi2]

/-- Witness for C6 at a concrete input: `envNoKey` has no key; the
error string is returned, and the same call against `envA` (key
present) initializes successfully. -/
theorem c6_witness :
    handler envNoKey false [Message.mk (some "user") (some "good evening")] =
      ("Error: Failed to initialize agents: API key must be set before initializing agents",
        false, [Call.initAgents])
    ∧ (handler envA false [Message.mk (some "user") (some "good evening")]).2.1 =
        true := by
  have h := c6_missing_api_key_error envNoKey
    [Message.mk (some "user") (some "good evening")] rfl rfl
  exact ⟨h.1, h.2 envA rfl rfl⟩

/-- C1 counterexample: `"I am very sad today"` is a 5-word plain-text
input containing neither "plan" nor "recovery", so the claim requires a
single-agent chat invoking only the therapist persona.  Instead the
handler makes exactly one team (full-report) invocation — the trace is
`[Call.team ...]`, with no therapist call — and returns the team's
reply, not the therapist's. -/
theorem c1_counterexample :
    handler envA true [Message.mk (some "user") (some "I am very sad today")] =
        ("TEAM-REPLY", true, [Call.team (Json.str "I am very sad today") []])
    ∧ "TEAM-REPLY" ≠ "THERAPIST-REPLY" :=
  ⟨rfl, by decide⟩

/-- C1 amended: the handler applies no plain-text routing heuristic at
all.  For every non-empty plain-text content (not brace delimited, or
brace delimited but not valid JSON) of a last user message — regardless
of the substrings "plan"/"recovery" and regardless of word count — the
selected mode is the default team mode: the initialized handler makes
exactly one team invocation on the raw content and returns its result;
the therapist persona is reached only through an explicit JSON `mode`. -/
theorem c1_plain_text_routes_to_team (env : Env) (msgs : List Message)
    (m : Message) (content : String)
    (hl : msgs.getLast? = some m) (hr : m.role = some "user")
    (hc : m.content = some content)
    (hplain : startsWithBrace content = false ∨ endsWithBrace content = false ∨
      json_loads content = none)
    (hne : content ≠ "") :
    handler env true msgs =
      (catchToText (env.team (Json.str content) []), true,
       [Call.team (Json.str content) []]) := by
  have hx : extractMsg m = (Json.str content, Json.arr [], Json.str "team") :=
    extractMsg_plain m content hr hc hplain
  have hd : runDispatch env (Json.str content) (Json.arr []) (Json.str "team") =
      (catchToText (env.team (Json.str content) []),
       [Call.team (Json.str content) []]) := rfl
  unfold handler
  simp [extractRequest_last msgs m hl, hx, pythonTruthy, hne, hd]

/-- Witness for C1 at a concrete plain-text input. -/
theorem c1_witness :
    handler envA true [Message.mk (some "user") (some "life feels hard right now")] =
      ("TEAM-REPLY", true,
       [Call.team (Json.str "life feels hard right now") []]) :=
  c1_plain_text_routes_to_team envA _ _ "life feels hard right now"
    rfl rfl rfl (Or.inl rfl) (by decide)

/-- C2 counterexample: in `envB` exactly one of the four persona
capabilities raises (the therapist; closure, routine and honesty return
the distinct markers `CLOSURE-REPLY`, `ROUTINE-REPLY`, `HONEST-REPLY`).
The claim requires the composed report to contain the three surviving
sections verbatim plus a placeholder for the failed one.  Instead the
handler, in full-report mode, performs a single team invocation (the
trace holds no persona call at all) and returns only the team's
coordinator text, which contains none of the three marker sections and
no "agent error" placeholder. -/
theorem c2_counterexample :
    handler envB true [Message.mk (some "user") (some "please help me heal")] =
        ("TEAM-REPLY", true, [Call.team (Json.str "please help me heal") []])
    ∧ strHasSub "TEAM-REPLY" "CLOSURE-REPLY" = false
    ∧ strHasSub "TEAM-REPLY" "ROUTINE-REPLY" = false
    ∧ strHasSub "TEAM-REPLY" "HONEST-REPLY" = false
    ∧ strHasSub "TEAM-REPLY" "agent error" = false :=
  ⟨rfl, rfl, rfl, rfl, rfl⟩

/-- C2 amended: the full-report path performs no per-persona
aggregation and no placeholder composition.  A team-mode request (here
an explicit structured `mode: "team"` payload without images) leads to
exactly one external invocation — the coordinating team — and none of
the four persona runners; the returned text is the team's coordinator
response when it succeeds, and the string `"Error: " ++ e` (the call
does not raise) when the single team invocation raises `e`. -/
theorem c2_team_mode_single_invocation (env : Env) (msgs : List Message)
    (m : Message) (content : String) (kvs : List (String × Json)) (ui : Json)
    (hl : msgs.getLast? = some m) (hr : m.role = some "user")
    (hc : m.content = some content)
    (hb : startsWithBrace content = true) (he : endsWithBrace content = true)
    (hp : json_loads content = some (Json.obj kvs))
    (htext : jget kvs "text" = some ui) (htr : pythonTruthy ui = true)
    (himg : jget kvs "images" = none)
    (hmode : jget kvs "mode" = some (Json.str "team")) :
    handler env true msgs =
      (catchToText (env.team ui []), true, [Call.team ui []]) := by
  have hx : extractMsg m = (ui, Json.arr [], Json.str "team") := by
    rw [extractMsg_json m content kvs hr hc hb he hp, htext, himg, hmode]
    rfl
  have hd : runDispatch env ui (Json.arr []) (Json.str "team") =
      (catchToText (env.team ui []), [Call.team ui []]) := rfl
  unfold handler
  simp [extractRequest_last msgs m hl, hx, htr, hd]

/-- Witness for C2 at a concrete team-mode payload, in an environment
where the single team invocation raises: the handler returns the error
string instead of raising. -/
theorem c2_witness :
    handler envTeamFail true
        [Message.mk (some "user")
          (some "\x7b\"text\":\"I want a full report\",\"mode\":\"team\"\x7d")] =
      ("Error: agent down", true,
       [Call.team (Json.str "I want a full report") []]) :=
  c2_team_mode_single_invocation envTeamFail _ _
    "\x7b\"text\":\"I want a full report\",\"mode\":\"team\"\x7d"
    [("text", Json.str "I want a full report"), ("mode", Json.str "team")]
    (Json.str "I want a full report")
    rfl rfl rfl rfl rfl rfl rfl rfl rfl rfl

/-- C5 counterexample: `"planner"` is one of the claim's explicit enum
values, yet the payload `\x7b"text":"I need help","mode":"planner"\x7d`
does not invoke the routine-planner persona: the handler's dispatch
chain recognizes only `"therapist" | "closure" | "routine" | "honest"`,
so `"planner"` falls through to the team, whose reply — not the planner
persona's — is returned. -/
theorem c5_counterexample :
    handler envA true
        [Message.mk (some "user")
          (some "\x7b\"text\":\"I need help\",\"mode\":\"planner\"\x7d")] =
        ("TEAM-REPLY", true, [Call.team (Json.str "I need help") []])
    ∧ "TEAM-REPLY" ≠ "ROUTINE-REPLY" :=
  ⟨rfl, by decide⟩

/-- C5 amended: the explicit mode enum recognized by the handler is
`therapist`, `closure`, `routine`, `honest` (not `planner`/`honesty`).
For a structured payload (without images) whose `mode` is one of those
four strings, the handler invokes only that persona's capability and
returns its text (or its converted error); any other string mode —
including absent, unrecognized, `"planner"` and `"honesty"` — falls
through to the full team aggregation. -/
theorem c5_explicit_mode_dispatch (env : Env) (msgs : List Message)
    (m : Message) (content : String) (kvs : List (String × Json)) (ui : Json)
    (s : String)
    (hl : msgs.getLast? = some m) (hr : m.role = some "user")
    (hc : m.content = some content)
    (hb : startsWithBrace content = true) (he : endsWithBrace content = true)
    (hp : json_loads content = some (Json.obj kvs))
    (htext : jget kvs "text" = some ui) (htr : pythonTruthy ui = true)
    (himg : jget kvs "images" = none)
    (hmode : jget kvs "mode" = some (Json.str s)) :
    (s = "therapist" → handler env true msgs =
      (catchToText (env.therapist ui []), true, [Call.therapist ui []]))
    ∧ (s = "closure" → handler env true msgs =
      (catchToText (env.closure ui []), true, [Call.closure ui []]))
    ∧ (s = "routine" → handler env true msgs =
      (catchToText (env.routine ui []), true, [Call.routine ui []]))
    ∧ (s = "honest" → handler env true msgs =
      (catchToText (env.honest ui []), true, [Call.honest ui []]))
    ∧ (s ≠ "therapist" → s ≠ "closure" → s ≠ "routine" → s ≠ "honest" →
      handler env true msgs =
        (catchToText (env.team ui []), true, [Call.team ui []])) := by
  have hx : extractMsg m = (ui, Json.arr [], Json.str s) := by
    rw [extractMsg_json m content kvs hr hc hb he hp, htext, himg, hmode]
    rfl
  have hh : ∀ t : Json,
      extractMsg m = (ui, Json.arr [], t) →
      handler env true msgs =
        (catchToText (selectedAgent env ui [] t), true, [callOf t ui []]) := by
    intro t hxt
    unfold handler
    simp [extractRequest_last msgs m hl, hxt, htr, runDispatch_noImages]
  refine ⟨?_, ?_, ?_, ?_, ?_⟩
  · intro hs
    subst hs
    exact hh (Json.str "therapist") hx
  · intro hs
    subst hs
    exact hh (Json.str "closure") hx
  · intro hs
    subst hs
    exact hh (Json.str "routine") hx
  · intro hs
    subst hs
    exact hh (Json.str "honest") hx
  · intro h1 h2 h3 h4
    rw [hh (Json.str s) hx, selectedAgent_other env ui [] s h1 h2 h3 h4,
      callOf_other ui [] s h1 h2 h3 h4]

/-- Witness for C5 at the claim's own concrete payload: mode `closure`
invokes only the closure persona and returns its text, not the full
report. -/
theorem c5_witness :
    handler envA true
        [Message.mk (some "user")
          (some "\x7b\"text\":\"I could use help\",\"mode\":\"closure\"\x7d")] =
      ("CLOSURE-REPLY", true, [Call.closure (Json.str "I could use help") []]) :=
  (c5_explicit_mode_dispatch envA
    [Message.mk (some "user")
      (some "\x7b\"text\":\"I could use help\",\"mode\":\"closure\"\x7d")]
    (Message.mk (some "user")
      (some "\x7b\"text\":\"I could use help\",\"mode\":\"closure\"\x7d"))
    "\x7b\"text\":\"I could use help\",\"mode\":\"closure\"\x7d"
    [("text", Json.str "I could use help"), ("mode", Json.str "closure")]
    (Json.str "I could use help") "closure"
    rfl rfl rfl rfl rfl rfl rfl rfl rfl rfl).2.1 rfl

/-- Appending traces adds their construction-pass counts. -/
lemma countInit_append (l1 l2 : List Call) :
    countInit (l1 ++ l2) = countInit l1 + countInit l2 := by
  simp [countInit, List.countP_append]

/-- The empty trace has no construction pass. -/
lemma countInit_nil : countInit [] = 0 := rfl

/-- Prepending the construction pass adds one to the count. -/
lemma countInit_cons_init (l : List Call) :
    countInit (Call.initAgents :: l) = countInit l + 1 := by
  simp [countInit, List.countP_cons, isInitCall]

/-- An image-processing trace entry is not a construction pass. -/
lemma countInit_processImages (f : Json) :
    countInit [Call.processImages f] = 0 := rfl

/-- Prepending an image-processing entry leaves the count unchanged. -/
lemma countInit_cons_processImages (f : Json) (l : List Call) :
    countInit (Call.processImages f :: l) = countInit l := by
  simp [countInit, List.countP_cons, isInitCall]

/-- The trace entry of a mode dispatch is never a construction pass. -/
lemma countInit_callOf (mode ui : Json) (images : List Json) :
    countInit [callOf mode ui images] = 0 := by
  unfold countInit callOf
  split <;> rfl

/-- The dispatch stage performs no agent-construction pass. -/
lemma countInit_runDispatch (env : Env) (ui imgd mode : Json) :
    countInit (runDispatch env ui imgd mode).2 = 0 := by
  unfold runDispatch
  rcases h : imagesStep env imgd with e | imgs <;>
    cases himg : pythonTruthy imgd <;>
      simp [h, himg, countInit_append, countInit_processImages,
        countInit_cons_processImages, countInit_callOf, countInit_nil]

/-- From an initialized state the flag stays true and no construction
pass happens. -/
lemma handler_true (env : Env) (ms : List Message) :
    (handler env true ms).2.1 = true ∧ countInit (handler env true ms).2.2 = 0 := by
  unfold handler
  by_cases ht : pythonTruthy (extractRequest ms).1 = true
  · simp [ht, countInit_runDispatch]
  · simp [ht, countInit]

/-- From an initialized state a whole serialized sequence of handler
calls stays initialized and performs no construction pass. -/
lemma runSeq_true (env : Env) (msgss : List (List Message)) :
    (runSeq env true msgss).1 = true ∧ countInit (runSeq env true msgss).2 = 0 := by
  induction msgss with
  | nil => exact ⟨rfl, rfl⟩
  | cons ms rest ih =>
    have h := handler_true env ms
    unfold runSeq
    rw [h.1]
    exact ⟨ih.1, by rw [countInit_append, h.2, ih.2]⟩

/-- C3: every failure surfaced during top-level handling is converted
into a user-visible string, never propagated (the model's handler is a
total function into strings precisely because every fallible stage is
caught as in the source).  Specifically: (1) an initialization failure
`e` yields exactly `"Error: Failed to initialize agents: " ++ e` —
containing the identifying phrase — and leaves the flag false; (2) an
exception `e` raised by image processing or by the selected agent
invocation yields exactly `"Error: " ++ e`; (3) an unusable message
yields the fixed refusal string. -/
theorem c3_errors_converted_to_strings (env : Env) (init : Bool)
    (msgs : List Message) :
    (∀ e, init = false → pythonTruthy (extractRequest msgs).1 = true →
      initialize_agents env = Except.error e →
      handler env init msgs =
        ("Error: Failed to initialize agents: " ++ e, false, [Call.initAgents]))
    ∧ (∀ e, pythonTruthy (extractRequest msgs).1 = true →
        (init = true ∨ initialize_agents env = Except.ok ()) →
        (imagesStep env (extractRequest msgs).2.1 = Except.error e ∨
          (∃ imgs, imagesStep env (extractRequest msgs).2.1 = Except.ok imgs ∧
            selectedAgent env (extractRequest msgs).1 imgs
              (extractRequest msgs).2.2 = Except.error e)) →
        (handler env init msgs).1 = "Error: " ++ e)
    ∧ (pythonTruthy (extractRequest msgs).1 = false →
        (handler env init msgs).1 = "No valid user message found") := by
  refine ⟨?_, ?_, ?_⟩
  · intro e h0 htr hi
    subst h0
    unfold handler
    simp [htr, hi]
  · intro e htr hinit herr
    have hdisp : (runDispatch env (extractRequest msgs).1
        (extractRequest msgs).2.1 (extractRequest msgs).2.2).1 = "Error: " ++ e := by
      rcases herr with himg | ⟨imgs, hok, hsel⟩
      · unfold runDispatch
        simp [himg]
      · unfold runDispatch
        simp [hok, hsel, catchToText]
    cases init with
    | true =>
      unfold handler
      simp [htr, hdisp]
    | false =>
      rcases hinit with h | hok2
      · exact absurd h (by simp)
      · unfold handler
        simp [htr, hok2, hdisp]
  · intro hf
    unfold handler
    simp [hf]

/-- Witness for C3: a team-capability failure is returned as the string
`"Error: agent down"`. -/
theorem c3_witness :
    (handler envTeamFail true [Message.mk (some "user") (some "hello there")]).1 =
      "Error: agent down" :=
  (c3_errors_converted_to_strings envTeamFail true
    [Message.mk (some "user") (some "hello there")]).2.1
    "agent down" rfl (Or.inl rfl) (Or.inr ⟨[], rfl, rfl⟩)

/-- C4: the initialization flag protocol. (1) The flag becomes true only
if it already was, or `initialize_agents` succeeded on this call; (2)
once true it stays true and no further construction pass occurs; (3) a
failed initialization leaves the flag false (so a later call retries);
(4) an uninitialized call with a usable message performs exactly one
construction pass; (5) across any serialized sequence of handler calls
(the mutex serializes concurrent first calls) with construction
succeeding, at most one construction pass happens in total. -/
theorem c4_initialization_flag_protocol (env : Env) (init : Bool)
    (msgs : List Message) :
    ((handler env init msgs).2.1 = true →
      init = true ∨ initialize_agents env = Except.ok ())
    ∧ (init = true → (handler env init msgs).2.1 = true ∧
        countInit (handler env init msgs).2.2 = 0)
    ∧ (∀ e, init = false → initialize_agents env = Except.error e →
        (handler env init msgs).2.1 = false)
    ∧ (init = false → pythonTruthy (extractRequest msgs).1 = true →
        countInit (handler env init msgs).2.2 = 1)
    ∧ (∀ msgss : List (List Message), initialize_agents env = Except.ok () →
        countInit (runSeq env false msgss).2 ≤ 1) := by
  refine ⟨?_, ?_, ?_, ?_, ?_⟩
  · intro h
    cases init with
    | true => exact Or.inl rfl
    | false =>
      right
      by_cases ht : pythonTruthy (extractRequest msgs).1 = true
      · rcases hi : initialize_agents env with e | u
        · exfalso
          unfold handler at h
          simp [ht, hi] at h
        · cases u
          rfl
      · exfalso
        unfold handler at h
        simp [ht] at h
  · intro h
    subst h
    exact handler_true env msgs
  · intro e h0 hi
    subst h0
    by_cases ht : pythonTruthy (extractRequest msgs).1 = true
    · unfold handler
      simp [ht, hi]
    · unfold handler
      simp [ht]
  · intro h0 ht
    subst h0
    rcases hi : initialize_agents env with e | u
    · unfold handler
      simp [ht, hi]
      rfl
    · cases u
      unfold handler
      simp [ht, hi]
      rw [countInit_cons_init, countInit_runDispatch]
  · intro msgss hok
    induction msgss with
    | nil => simp [runSeq, countInit]
    | cons ms rest ih =>
      unfold runSeq
      by_cases ht : pythonTruthy (extractRequest ms).1 = true
      · have hst : (handler env false ms).2.1 = true := by
          unfold handler
          simp [ht, hok]
        have hc : countInit (handler env false ms).2.2 = 1 := by
          unfold handler
          simp [ht, hok]
          rw [countInit_cons_init, countInit_runDispatch]
        rw [countInit_append, hst, hc, (runSeq_true env rest).2]
      · have hst : (handler env false ms).2.1 = false := by
          unfold handler
          simp [ht]
        have hc0 : countInit (handler env false ms).2.2 = 0 := by
          unfold handler
          simp [ht, countInit]
        rw [countInit_append, hst, hc0]
        simpa using ih

/-- Witness for C4: a first successful call performs exactly one
construction pass, and a serialized pair of calls performs at most one
in total. -/
theorem c4_witness :
    countInit (handler envA false
        [Message.mk (some "user") (some "good morning")]).2.2 = 1
    ∧ countInit (runSeq envA false
        [[Message.mk (some "user") (some "good morning")],
         [Message.mk (some "user") (some "good morning")]]).2 ≤ 1 := by
  have h := c4_initialization_flag_protocol envA false
    [Message.mk (some "user") (some "good morning")]
  exact ⟨h.2.2.2.1 rfl rfl,
    h.2.2.2.2 [[Message.mk (some "user") (some "good morning")],
      [Message.mk (some "user") (some "good morning")]] rfl⟩

end BreakupAgent
